import Mathlib

/-!
Shallow embedding of `optical_detector_plugin` (file `__init__.py`):
the sampling engine (`measure_pulses`), the per-step aggregation
(`count_pulses_and_log`), the step-synchronization poll
(`_wait_for_control_board`), the threshold dispatcher
(`process_absorbance`), the completion-notification handler
(`on_step_complete`) and the step start / cancellation logic
(`on_step_run` / `_kill_running_step`).

Conventions of the embedding:
* Python floats are modelled as rationals (`ℚ`); the float literal `1e-3`
  is modelled exactly as `1/1000`.
* `datetime` timestamps on sample rows are supplied by an environment
  clock (`Nat`-valued); elapsed wall-clock time in the poll is a rational
  number of seconds, matching `timedelta.total_seconds()`.
* The serial proxy (`pulse_counter_rpc.SerialProxy`) is an oracle in the
  environment: `analog_write` always succeeds and is recorded in the
  emission trace, `count_pulses` may either return a count or raise.
* Python exceptions are modelled with `Except PyErr`; `PyErr.ioError`
  stands for `IOError` and `PyErr.valueError` stands for any exception of
  a different class.
* Side effects (client calls, `emit_signal`, experiment-log appends,
  control-board directives) are collected in an `Emission` trace.
-/

/-- The two detectors iterated (in this order) by `count_pulses_and_log`. -/
inductive Detector where
  | absorbance
  | fluorescence_1
deriving DecidableEq, Repr, Inhabited

/-- Modelled Python exception classes: `IOError`, and a representative for
every other exception class (e.g. `ValueError`). -/
inductive PyErr where
  | ioError
  | valueError
deriving DecidableEq, Repr

deriving instance DecidableEq for Except

/-- Application-level options (the `AppFields` form of the plugin). -/
structure AppValues where
  dmf_control_timeout_ms : Int
  absorbance_count_pin : Int
  fluorescence_1_count_pin : Int
  absorbance_channel : Int
  fluorescence_1_channel : Int
  absorbance_excite_pin : Int
  fluorescence_1_excite_pin : Int
deriving DecidableEq, Repr

/-- The defaults declared in the `AppFields` form. -/
def defaultAppValues : AppValues :=
  { dmf_control_timeout_ms := 5000
    absorbance_count_pin := 2
    fluorescence_1_count_pin := 3
    absorbance_channel := 1
    fluorescence_1_channel := 2
    absorbance_excite_pin := 10
    fluorescence_1_excite_pin := 5 }

/-- Per-step options (the `StepFields` form plus the two sub-protocol paths
stored by the OD-threshold-events dialog; an absent or empty path is
modelled as `none`, matching Python truthiness of `options.get(k, None)`). -/
structure StepOptions where
  absorbance_sample_count : Nat
  absorbance_sample_duration_ms : Nat
  absorbance_excitation_intensity : ℚ
  absorbance_threshold : ℚ
  fluorescence_1_sample_count : Nat
  fluorescence_1_sample_duration_ms : Nat
  fluorescence_1_excitation_intensity : ℚ
  under_threshold_subprotocol : Option String
  over_threshold_subprotocol : Option String
deriving DecidableEq, Repr

/-- The defaults declared in the `StepFields` form. -/
def defaultStepOptions : StepOptions :=
  { absorbance_sample_count := 0
    absorbance_sample_duration_ms := 1000
    absorbance_excitation_intensity := 23
    absorbance_threshold := 0
    fluorescence_1_sample_count := 0
    fluorescence_1_sample_duration_ms := 1000
    fluorescence_1_excitation_intensity := 100
    under_threshold_subprotocol := none
    over_threshold_subprotocol := none }

/-- `app_values[detector_name + '_excite_pin']`. -/
def Detector.excitePin : Detector → AppValues → Int
  | .absorbance, av => av.absorbance_excite_pin
  | .fluorescence_1, av => av.fluorescence_1_excite_pin

/-- `app_values[detector_name + '_count_pin']`. -/
def Detector.countPin : Detector → AppValues → Int
  | .absorbance, av => av.absorbance_count_pin
  | .fluorescence_1, av => av.fluorescence_1_count_pin

/-- `app_values[detector_name + '_channel']`. -/
def Detector.channel : Detector → AppValues → Int
  | .absorbance, av => av.absorbance_channel
  | .fluorescence_1, av => av.fluorescence_1_channel

/-- `step_options[detector_name + '_sample_count']`. -/
def Detector.sampleCount : Detector → StepOptions → Nat
  | .absorbance, so => so.absorbance_sample_count
  | .fluorescence_1, so => so.fluorescence_1_sample_count

/-- `step_options[detector_name + '_sample_duration_ms']`. -/
def Detector.durationMs : Detector → StepOptions → Nat
  | .absorbance, so => so.absorbance_sample_duration_ms
  | .fluorescence_1, so => so.fluorescence_1_sample_duration_ms

/-- `step_options[detector_name + '_excitation_intensity']`. -/
def Detector.intensity : Detector → StepOptions → ℚ
  | .absorbance, so => so.absorbance_excitation_intensity
  | .fluorescence_1, so => so.fluorescence_1_excitation_intensity

/-- The other detector of the fixed two-detector iteration
`['absorbance', 'fluorescence_1']`. -/
def Detector.other : Detector → Detector
  | .absorbance => .fluorescence_1
  | .fluorescence_1 => .absorbance

/-- One row of the step result table, as appended by `measure_pulses`:
`[datetime.now(), detector_name, i, intensity, duration_ms, result]`. -/
structure SampleRow where
  timestamp : Nat
  detector : Detector
  sample_i : Nat
  intensity : ℚ
  duration_ms : Nat
  pulse_count : Nat
deriving DecidableEq, Repr, Inhabited

/-- A call issued to the serial proxy (the Detector Client). -/
inductive ClientCall where
  | analogWrite (pin : Int) (duty : Int)
  | countPulses (pin : Int) (channel : Int) (duration_ms : Nat)
deriving DecidableEq, Repr

/-- Observable side effects of the plugin, in program order. -/
inductive Emission where
  | client (call : ClientCall)
  | log (rows : List SampleRow)
  | setVoltage (v : ℚ)
  | setFrequency (f : ℚ)
  | setChannelState (state : List Int)
  | stepComplete (source : String) (outcome : Option String)
deriving DecidableEq, Repr

/-- One step of a stored sub-protocol as consumed by `process_absorbance`
(channel-state vector, waveform voltage and frequency, hold duration in
milliseconds; the `time.sleep` settle is real time and is not modelled). -/
structure SubStep where
  state_of_channels : List Int
  voltage : ℚ
  frequency : ℚ
  duration : ℚ
deriving DecidableEq, Repr

/-- The plugin's name (`self.name`).  The concrete string comes from the
plugin's properties file, which is not part of the sources; only its
identity matters here. -/
def pluginName : String := "wheelerlab.optical_detector_plugin"

/-- Environment of one step execution: configuration plus the external
collaborators (serial proxy, sub-protocol store, control board). -/
structure Env where
  app_values : AppValues
  step_options : StepOptions
  /-- result of `verify_connected()` for the serial proxy -/
  connected : Bool
  /-- `datetime.now()` observed at the i-th acquisition of a detector -/
  clock : Detector → Nat → Nat
  /-- `proxy.count_pulses` outcome at the i-th acquisition of a detector -/
  oracle : Detector → Nat → Except PyErr Nat
  /-- `Protocol.load` outcome for a sub-protocol path -/
  loadProtocol : String → Except PyErr (List SubStep)
  /-- `control_board.number_of_channels()` -/
  maxChannels : Nat

/-- Python `int()` applied to a rational: truncation toward zero. -/
def pyInt (q : ℚ) : Int := if 0 ≤ q then ⌊q⌋ else ⌈q⌉

/-- `intensity_duty_cycle = int(intensity / 100. * 255)`. -/
def intensityDutyCycle (intensity : ℚ) : Int := pyInt (intensity / 100 * 255)

/-- The acquisition loop of `measure_pulses`
(`for i in xrange(sample_count): result = proxy.count_pulses(...)`),
started at sample index `i` with `n` samples remaining.  Returns the trace
of client calls together with either the collected rows or the first
exception raised by `count_pulses`. -/
def acquireFrom (env : Env) (d : Detector) (intensity : ℚ) (duration_ms : Nat) :
    Nat → Nat → List Emission × Except PyErr (List SampleRow)
  | _, 0 => ([], Except.ok [])
  | i, n + 1 =>
    let call := Emission.client (ClientCall.countPulses (d.countPin env.app_values)
      (d.channel env.app_values) duration_ms)
    match env.oracle d i with
    | Except.error e => ([call], Except.error e)
    | Except.ok c =>
      let row : SampleRow :=
        { timestamp := env.clock d i, detector := d, sample_i := i,
          intensity := intensity, duration_ms := duration_ms, pulse_count := c }
      let rest := acquireFrom env d intensity duration_ms (i + 1) n
      (call :: rest.1, rest.2.map (fun rows => row :: rows))

/-- `measure_pulses(detector_name, app_values, step_options)`: set the
excitation duty cycle, run the acquisition loop, then turn the excitation
off.  There is no `try/finally` in the source: the trailing
`analog_write(pin, 0)` is reached only when every acquisition returned
normally. -/
def measure_pulses (env : Env) (d : Detector) :
    List Emission × Except PyErr (List SampleRow) :=
  let intensity := d.intensity env.step_options
  let duty := intensityDutyCycle intensity
  let pin := d.excitePin env.app_values
  let duration_ms := d.durationMs env.step_options
  let rest := acquireFrom env d intensity duration_ms 0 (d.sampleCount env.step_options)
  match rest.2 with
  | Except.error e =>
      (Emission.client (ClientCall.analogWrite pin duty) :: rest.1, Except.error e)
  | Except.ok rows =>
      (Emission.client (ClientCall.analogWrite pin duty) ::
        (rest.1 ++ [Emission.client (ClientCall.analogWrite pin 0)]),
       Except.ok rows)

/-- `count_pulses_and_log`: iterate over `['absorbance', 'fluorescence_1']`,
measure each detector whose `sample_count` is nonzero (Python truthiness),
concatenate the rows, and append the resulting table to the experiment log
when it is nonempty (`if step_results:`).  Exceptions from `measure_pulses`
propagate. -/
def count_pulses_and_log (env : Env) :
    List Emission × Except PyErr (Option (List SampleRow)) :=
  let ra := if env.step_options.absorbance_sample_count ≠ 0 then
      measure_pulses env Detector.absorbance
    else ([], Except.ok [])
  match ra.2 with
  | Except.error e => (ra.1, Except.error e)
  | Except.ok rows_a =>
    let rf := if env.step_options.fluorescence_1_sample_count ≠ 0 then
        measure_pulses env Detector.fluorescence_1
      else ([], Except.ok [])
    match rf.2 with
    | Except.error e => (ra.1 ++ rf.1, Except.error e)
    | Except.ok rows_f =>
      let step_results := rows_a ++ rows_f
      if step_results.isEmpty then (ra.1 ++ rf.1, Except.ok none)
      else (ra.1 ++ rf.1 ++ [Emission.log step_results],
            Except.ok (some step_results))

/-- Insertion of one value into a sorted list of rationals. -/
def insertSorted (x : ℚ) : List ℚ → List ℚ
  | [] => [x]
  | y :: ys => if x ≤ y then x :: y :: ys else y :: insertSorted x ys

/-- Insertion sort, used to model the sort underlying `Series.median`. -/
def sortRates (xs : List ℚ) : List ℚ := xs.foldr insertSorted []

/-- `pandas.Series.median`: sort the values; for an odd count take the
middle element, for an even count the average of the two middle elements.
(`0` is returned for the empty series, which the caller rules out by
checking `df_absorbance.shape[0] > 0` first.) -/
def median (xs : List ℚ) : ℚ :=
  let s := sortRates xs
  let n := s.length
  if n % 2 = 1 then s.getD (n / 2) 0
  else (s.getD (n / 2 - 1) 0 + s.getD (n / 2) 0) / 2

/-- The per-row series expression
`df_absorbance.pulse_count / df_absorbance.duration_ms * 1e-3`. -/
def seriesRate (r : SampleRow) : ℚ :=
  (r.pulse_count : ℚ) / (r.duration_ms : ℚ) * (1 / 1000)

/-- The measured absorbance computed in `_wait_for_control_board`:
`(df_absorbance.pulse_count / df_absorbance.duration_ms * 1e-3).median()`. -/
def measuredAbsorbance (df : List SampleRow) : ℚ :=
  median (df.map seriesRate)

/-- Modelled from the spec: the normalized pulse rate
`pulse_count / duration_ms * 1e-3` named in the Threshold Dispatcher
contract, to be compared with the series expression of the source. -/
def pulseRate (r : SampleRow) : ℚ :=
  (r.pulse_count : ℚ) / (r.duration_ms : ℚ) * (1 / 1000)

/-- The sub-protocol path chosen by `process_absorbance`:
`over_threshold_subprotocol` when `absorbance >= threshold`, otherwise
`under_threshold_subprotocol`. -/
def selectedSubprotocolPath (so : StepOptions) (absorbance : ℚ) : Option String :=
  if so.absorbance_threshold ≤ absorbance then so.over_threshold_subprotocol
  else so.under_threshold_subprotocol

/-- Adaptation of a stored channel-state vector to the control board's
channel count: truncate when longer, zero-pad when shorter. -/
def adaptChannelState (state : List Int) (maxChannels : Nat) : List Int :=
  if maxChannels < state.length then state.take maxChannels
  else if state.length < maxChannels then
    state ++ List.replicate (maxChannels - state.length) 0
  else state

/-- Replay of one sub-protocol step: `set_voltage`, `set_frequency`, then
`set_state_of_all_channels` on the adapted vector. -/
def replayStep (maxChannels : Nat) (step : SubStep) : List Emission :=
  [Emission.setVoltage step.voltage, Emission.setFrequency step.frequency,
   Emission.setChannelState (adaptChannelState step.state_of_channels maxChannels)]

/-- `process_absorbance(absorbance)`: choose the sub-protocol path for the
measured value (a falsy path leaves `sub_protocol = []`), load it, and
replay every step.  A missing control-board connection only issues a
warning (not modelled); a `Protocol.load` failure raises. -/
def process_absorbance (env : Env) (absorbance : ℚ) :
    List Emission × Except PyErr Unit :=
  match selectedSubprotocolPath env.step_options absorbance with
  | none => ([], Except.ok ())
  | some p =>
    match env.loadProtocol p with
    | Except.error e => ([], Except.error e)
    | Except.ok steps =>
        ((steps.map (replayStep env.maxChannels)).flatten, Except.ok ())

/-- The plugin's mutable per-step fields. -/
structure PluginState where
  control_board_step_complete : Bool
  /-- `self.start_time` (seconds on the wall clock) -/
  start_time : ℚ
  control_board_timeout_id : Option Nat
deriving DecidableEq, Repr

/-- The plugin-field part of `_kill_running_step` (nulling the stored id);
the `gobject.source_remove` half is modelled at the scheduler layer. -/
def kill_running_step (st : PluginState) : PluginState :=
  { st with control_board_timeout_id := none }

/-- The body run by `_wait_for_control_board` once the completion flag has
been observed (the `else` branch of the source): kill the poll timer,
measure and log if the proxy is connected, dispatch on the absorbance
median catching only `IOError`, and signal step completion.  Factored out
of `wait_for_control_board` purely to name the branch. -/
def finish_step (env : Env) (st : PluginState) :
    List Emission × Except PyErr (PluginState × Bool) :=
  let st1 := kill_running_step st
  if env.connected then
    let r := count_pulses_and_log env
    match r.2 with
    | Except.error e => (r.1, Except.error e)
    | Except.ok none =>
        (r.1 ++ [Emission.stepComplete pluginName none], Except.ok (st1, false))
    | Except.ok (some rows) =>
      let df_absorbance :=
        rows.filter (fun r => decide (r.detector = Detector.absorbance))
      if 0 < df_absorbance.length then
        let pa := process_absorbance env (measuredAbsorbance df_absorbance)
        match pa.2 with
        | Except.ok _ =>
            (r.1 ++ pa.1 ++ [Emission.stepComplete pluginName none],
             Except.ok (st1, false))
        | Except.error PyErr.ioError =>
            (r.1 ++ pa.1 ++ [Emission.stepComplete pluginName none],
             Except.ok (st1, false))
        | Except.error e => (r.1 ++ pa.1, Except.error e)
      else
        (r.1 ++ [Emission.stepComplete pluginName none], Except.ok (st1, false))
  else
    ([Emission.stepComplete pluginName none], Except.ok (st1, false))

/-- `_wait_for_control_board(continue_)` at time `now` (seconds).  While
the completion flag is unset it compares the configured timeout —
an integer number of *milliseconds* — against
`(datetime.now() - self.start_time).total_seconds()`, exactly as the
source does; once the flag is set it runs `finish_step`. -/
def wait_for_control_board (env : Env) (now : ℚ) (st : PluginState)
    (continue_ : Bool) : List Emission × Except PyErr (PluginState × Bool) :=
  if st.control_board_step_complete = false then
    let timeout := env.app_values.dmf_control_timeout_ms
    if 0 < timeout ∧ (timeout : ℚ) < now - st.start_time then
      ([Emission.stepComplete pluginName (some "Fail")], Except.ok (st, false))
    else
      ([], Except.ok (st, continue_))
  else
    finish_step env st

/-- `on_step_complete(plugin_name, return_value)`: the completion flag is
raised only by a successful notification from
`'wheelerlab.dmf_control_board'`. -/
def on_step_complete (st : PluginState) (plugin_name : String)
    (return_value : Option String) : PluginState :=
  if return_value = none ∧ plugin_name = "wheelerlab.dmf_control_board" then
    { st with control_board_step_complete := true }
  else st

/-- Plugin state together with the GLib main-loop source registry.  The
registry models the `gobject` contract: `idle_add`/`timeout_add` return a
fresh id and register the source, `source_remove` deregisters it, and a
source fires only while registered (firing a removed source is a no-op). -/
structure SystemState where
  plugin : PluginState
  registered : List Nat
  next_id : Nat
deriving DecidableEq, Repr

/-- `_kill_running_step`: if a timeout id is stored, `source_remove` it and
null the field. -/
def kill_running_step_sys (s : SystemState) : SystemState :=
  match s.plugin.control_board_timeout_id with
  | none => s
  | some i =>
      { s with plugin := kill_running_step s.plugin,
               registered := s.registered.erase i }

/-- `on_step_run` at time `now`: kill any running step, reset the
completion flag, record the start time, then register the one-shot idle
check (its id is not retained by the plugin) and the 100 ms poll timer
(its id is stored in `control_board_timeout_id`). -/
def on_step_run (now : ℚ) (s : SystemState) : SystemState :=
  let s1 := kill_running_step_sys s
  let idleId := s1.next_id
  let timeoutId := s1.next_id + 1
  { plugin := { control_board_step_complete := false, start_time := now,
                control_board_timeout_id := some timeoutId },
    registered := s1.registered ++ [idleId, timeoutId],
    next_id := s1.next_id + 2 }

/-- Delivery of main-loop source `i` at time `now`: if the source is still
registered, run `_wait_for_control_board(continue_)`; the source stays
registered exactly when the callback returns `True`, and any id the
callback itself removed via `_kill_running_step` is deregistered too.  A
source that has been removed never fires.  (An exception escaping the
callback is treated as a falsy return: the fired source is removed.) -/
def fire_source (env : Env) (now : ℚ) (i : Nat) (continue_ : Bool)
    (s : SystemState) : SystemState × List Emission :=
  if i ∈ s.registered then
    let r := wait_for_control_board env now s.plugin continue_
    match r.2 with
    | Except.error _ => ({ s with registered := s.registered.erase i }, r.1)
    | Except.ok (st1, keep) =>
      let reg1 :=
        match s.plugin.control_board_timeout_id, st1.control_board_timeout_id with
        | some j, none => s.registered.erase j
        | _, _ => s.registered
      ({ plugin := st1,
         registered := if keep then reg1 else reg1.erase i,
         next_id := s.next_id }, r.1)
  else (s, [])

/-- A convenient fully-concrete environment for witnesses. -/
def baseEnv : Env :=
  { app_values := defaultAppValues
    step_options := defaultStepOptions
    connected := true
    clock := fun _ _ => 0
    oracle := fun _ _ => Except.ok 0
    loadProtocol := fun _ => Except.ok []
    maxChannels := 40 }

/-! ### Helper lemmas -/

/-- For a nonnegative rational, Python truncation agrees with the floor. -/
theorem pyInt_eq_floor (q : ℚ) (h : 0 ≤ q) : pyInt q = ⌊q⌋ := by
  rw [pyInt, if_pos h]

/-- The duty cycle for the default absorbance intensity of 23 %. -/
theorem intensityDutyCycle_default : intensityDutyCycle 23 = 58 := by
  rw [intensityDutyCycle, pyInt, if_pos (by norm_num)]
  norm_num [Int.floor_eq_iff]

/-- The duty cycle for an intensity of 1 %. -/
theorem intensityDutyCycle_one : intensityDutyCycle 1 = 2 := by
  rw [intensityDutyCycle, pyInt, if_pos (by norm_num)]
  norm_num [Int.floor_eq_iff]

/-! ### Concrete environments used by counterexamples and witnesses -/

/-- One absorbance sample configured; the acquisition raises `IOError`. -/
def env1 : Env :=
  { baseEnv with
    step_options := { defaultStepOptions with absorbance_sample_count := 1 }
    oracle := fun _ _ => Except.error PyErr.ioError }

/-- Absorbance excitation intensity of 1 %, no samples configured. -/
def env6 : Env :=
  { baseEnv with
    step_options := { defaultStepOptions with absorbance_excitation_intensity := 1 } }

/-- One absorbance sample (count 5), an over-threshold sub-protocol path
whose load raises a non-`IOError` exception. -/
def env3 : Env :=
  { baseEnv with
    step_options := { defaultStepOptions with
      absorbance_sample_count := 1
      over_threshold_subprotocol := some "over" }
    oracle := fun _ _ => Except.ok 5
    loadProtocol := fun _ => Except.error PyErr.valueError }

/-- Timeout disabled (`dmf_control_timeout_ms = 0`). -/
def env9 : Env :=
  { baseEnv with app_values := { defaultAppValues with dmf_control_timeout_ms := 0 } }

/-! ### Claims -/

/-- C1: the resource-release guarantee fails on the exception path.  With one
configured absorbance sample whose acquisition raises, `measure_pulses`
propagates the exception after the excitation write of duty 58 and the
`count_pulses` call, and no `analog_write(pin, 0)` ever appears in the call
trace: the excitation output is left on when control returns to the caller. -/
theorem C1_excitation_not_reset_on_error :
    measure_pulses env1 Detector.absorbance =
      ([Emission.client (ClientCall.analogWrite 10 58),
        Emission.client (ClientCall.countPulses 2 1 1000)],
       Except.error PyErr.ioError) ∧
    Emission.client (ClientCall.analogWrite 10 0) ∉
      (measure_pulses env1 Detector.absorbance).1 := by
  have h : measure_pulses env1 Detector.absorbance =
      ([Emission.client (ClientCall.analogWrite 10 (intensityDutyCycle 23)),
        Emission.client (ClientCall.countPulses 2 1 1000)],
       Except.error PyErr.ioError) := by
    simp [measure_pulses, acquireFrom, env1, baseEnv, defaultStepOptions,
      defaultAppValues, Detector.intensity, Detector.excitePin,
      Detector.durationMs, Detector.sampleCount, Detector.countPin,
      Detector.channel]
  rw [intensityDutyCycle_default] at h
  refine ⟨h, ?_⟩
  rw [h]
  decide

/-- C2: the timeout comparison mixes units.  With the default timeout of
5000 *milliseconds* and 6 *seconds* elapsed (6000 ms, past the claimed
deadline), the poll still reports no failure and keeps polling, because the
source compares the millisecond value against `total_seconds()`; the failure
branch is reached only once more than 5000 *seconds* have elapsed. -/
theorem C2_timeout_unit_mismatch :
    wait_for_control_board baseEnv 6 ⟨false, 0, some 1⟩ true =
      ([], Except.ok (⟨false, 0, some 1⟩, true)) ∧
    (5000 : ℚ) < 1000 * ((6 : ℚ) - 0) ∧
    wait_for_control_board baseEnv 5001 ⟨false, 0, some 1⟩ true =
      ([Emission.stepComplete pluginName (some "Fail")],
       Except.ok (⟨false, 0, some 1⟩, false)) := by
  refine ⟨?_, by norm_num, ?_⟩
  · simp only [wait_for_control_board]
    norm_num [baseEnv, defaultAppValues]
  · simp only [wait_for_control_board]
    norm_num [baseEnv, defaultAppValues]

/-- C3 counterexample: a dispatch error that is not an `IOError` (here the
sub-protocol load raises a `ValueError`) is *not* caught by the
`except IOError` clause: it propagates out of the poll callback and the
success step-complete signal is never emitted. -/
theorem C3_counterexample :
    (wait_for_control_board env3 0 ⟨true, 0, some 7⟩ true).2 =
      Except.error PyErr.valueError ∧
    Emission.stepComplete pluginName none ∉
      (wait_for_control_board env3 0 ⟨true, 0, some 7⟩ true).1 := by
  have hd := intensityDutyCycle_default
  norm_num [wait_for_control_board, finish_step, count_pulses_and_log,
    measure_pulses, acquireFrom, kill_running_step, process_absorbance,
    selectedSubprotocolPath, measuredAbsorbance, median, sortRates,
    insertSorted, seriesRate, Except.map,
    env3, baseEnv, defaultStepOptions, defaultAppValues,
    Detector.intensity, Detector.excitePin, Detector.durationMs,
    Detector.sampleCount, Detector.countPin, Detector.channel, hd]
  decide

/-- C5 counterexample: called with `sample_count = 0` (the default step
options) `measure_pulses` does return an empty sequence, but it still issues
two Detector Client calls, the first of which sets the excitation output to
the nonzero duty 58 — contradicting "issues zero calls" and "never sets the
excitation output to a nonzero value". -/
theorem C5_counterexample :
    measure_pulses baseEnv Detector.absorbance =
      ([Emission.client (ClientCall.analogWrite 10 58),
        Emission.client (ClientCall.analogWrite 10 0)], Except.ok []) ∧
    (measure_pulses baseEnv Detector.absorbance).1 ≠ [] := by
  have h : measure_pulses baseEnv Detector.absorbance =
      ([Emission.client (ClientCall.analogWrite 10 (intensityDutyCycle 23)),
        Emission.client (ClientCall.analogWrite 10 0)], Except.ok []) := by
    simp [measure_pulses, acquireFrom, baseEnv, defaultStepOptions,
      defaultAppValues, Detector.intensity, Detector.excitePin,
      Detector.durationMs, Detector.sampleCount]
  rw [intensityDutyCycle_default] at h
  rw [h]
  exact ⟨rfl, by decide⟩

/-- C6 counterexample: at intensity 1 % the duty cycle written before any
acquisition is `int(1/100*255) = 2`, whereas the claimed
`round(1/100*255)` is `3`: the source truncates instead of rounding to the
nearest integer. -/
theorem C6_counterexample :
    (measure_pulses env6 Detector.absorbance).1.head? =
      some (Emission.client (ClientCall.analogWrite 10 2)) ∧
    (measure_pulses env6 Detector.absorbance).1.head? ≠
      some (Emission.client (ClientCall.analogWrite 10 (round ((1 : ℚ) / 100 * 255)))) := by
  have hr : round ((1 : ℚ) / 100 * 255) = 3 := by
    norm_num [round_eq, Int.floor_eq_iff]
  have h : (measure_pulses env6 Detector.absorbance).1.head? =
      some (Emission.client (ClientCall.analogWrite 10 (intensityDutyCycle 1))) := by
    simp [measure_pulses, acquireFrom, env6, baseEnv, defaultStepOptions,
      defaultAppValues, Detector.intensity, Detector.excitePin,
      Detector.durationMs, Detector.sampleCount]
  rw [intensityDutyCycle_one] at h
  rw [h, hr]
  exact ⟨rfl, by decide⟩

/-- C9: a configured timeout of 0 disables timeout enforcement: whenever the
completion flag is unset, the poll emits nothing, leaves the state untouched
and keeps polling (returns `continue_`), no matter how much time elapsed. -/
theorem C9_zero_timeout_never_fails (env : Env) (st : PluginState) (now : ℚ)
    (cont : Bool)
    (htimeout : env.app_values.dmf_control_timeout_ms = 0)
    (hflag : st.control_board_step_complete = false) :
    wait_for_control_board env now st cont = ([], Except.ok (st, cont)) := by
  simp [wait_for_control_board, hflag, htimeout]

/-- Witness for C9: a concrete poll a million seconds into the step. -/
theorem C9_zero_timeout_never_fails_witness :
    wait_for_control_board env9 1000000 ⟨false, 0, some 1⟩ true =
      ([], Except.ok (⟨false, 0, some 1⟩, true)) :=
  C9_zero_timeout_never_fails env9 ⟨false, 0, some 1⟩ 1000000 true rfl rfl

/-- C10: the completion flag is raised exactly by a step-complete
notification from `'wheelerlab.dmf_control_board'` carrying a `None`
return value; any other notification leaves the plugin state unchanged. -/
theorem C10_completion_flag_guard (st : PluginState) (pn : String)
    (rv : Option String) :
    ((on_step_complete st pn rv).control_board_step_complete = true ↔
      (st.control_board_step_complete = true ∨
        (pn = "wheelerlab.dmf_control_board" ∧ rv = none))) ∧
    (¬ (pn = "wheelerlab.dmf_control_board" ∧ rv = none) →
      on_step_complete st pn rv = st) := by
  unfold on_step_complete
  by_cases h : rv = none ∧ pn = "wheelerlab.dmf_control_board"
  · rw [if_pos h]
    refine ⟨by simp [h.1, h.2], fun hc => absurd ⟨h.2, h.1⟩ hc⟩
  · rw [if_neg h]
    refine ⟨⟨fun hf => Or.inl hf, ?_⟩, fun _ => rfl⟩
    rintro (hf | ⟨hpn, hrv⟩)
    · exact hf
    · exact absurd ⟨hrv, hpn⟩ h

/-- Witness for C10: a successful control-board notification raises the
flag; a failure notification from the same plugin leaves the state as is. -/
theorem C10_completion_flag_guard_witness :
    (on_step_complete ⟨false, 0, none⟩ "wheelerlab.dmf_control_board"
        none).control_board_step_complete = true ∧
    on_step_complete ⟨false, 0, none⟩ "wheelerlab.dmf_control_board"
        (some "Fail") = ⟨false, 0, none⟩ := by
  constructor
  · exact (C10_completion_flag_guard ⟨false, 0, none⟩
      "wheelerlab.dmf_control_board" none).1.2 (Or.inr ⟨rfl, rfl⟩)
  · exact (C10_completion_flag_guard ⟨false, 0, none⟩
      "wheelerlab.dmf_control_board" (some "Fail")).2 (by simp)

/-- C4: starting a new step first invalidates the pending poll/timeout
registration of the previous step: after `on_step_run`, the previous
step's timer id is no longer registered, and delivering that timer fires
nothing — it produces no emission (in particular no step-complete signal
and no samples) and leaves the system state unchanged. -/
theorem C4_stale_timer_never_fires (env : Env) (s : SystemState)
    (now now2 : ℚ) (cont : Bool) (oldId : Nat)
    (hid : s.plugin.control_board_timeout_id = some oldId)
    (hfresh : oldId < s.next_id)
    (hnodup : s.registered.Nodup) :
    oldId ∉ (on_step_run now s).registered ∧
    fire_source env now2 oldId cont (on_step_run now s) =
      (on_step_run now s, []) := by
  have hreg : (on_step_run now s).registered =
      s.registered.erase oldId ++ [s.next_id, s.next_id + 1] := by
    simp [on_step_run, kill_running_step_sys, hid]
  have hnm : oldId ∉ (on_step_run now s).registered := by
    rw [hreg]
    intro hmem
    rcases List.mem_append.1 hmem with hm | hm
    · exact hnodup.not_mem_erase hm
    · simp only [List.mem_cons, List.not_mem_nil, or_false] at hm
      rcases hm with h | h <;> omega
  refine ⟨hnm, ?_⟩
  unfold fire_source
  rw [if_neg hnm]

/-- Witness for C4: concrete previous-step state with pending timer id 0. -/
theorem C4_stale_timer_never_fires_witness :
    0 ∉ (on_step_run 0 ⟨⟨false, 0, some 0⟩, [0], 1⟩).registered ∧
    fire_source baseEnv 1 0 true (on_step_run 0 ⟨⟨false, 0, some 0⟩, [0], 1⟩) =
      (on_step_run 0 ⟨⟨false, 0, some 0⟩, [0], 1⟩, []) :=
  C4_stale_timer_never_fires baseEnv ⟨⟨false, 0, some 0⟩, [0], 1⟩ 0 1 true 0
    rfl (by decide) (by decide)

/-! ### Symbolic characterization of the acquisition loop -/

/-- The rows collected by a fully successful acquisition loop whose oracle
returns `f i` for the i-th acquisition. -/
def expectedRows (env : Env) (d : Detector) (intensity : ℚ) (dur : Nat)
    (f : Nat → Nat) : Nat → Nat → List SampleRow
  | _, 0 => []
  | i, n + 1 =>
    { timestamp := env.clock d i, detector := d, sample_i := i,
      intensity := intensity, duration_ms := dur, pulse_count := f i } ::
      expectedRows env d intensity dur f (i + 1) n

theorem expectedRows_length (env : Env) (d : Detector) (intensity : ℚ)
    (dur : Nat) (f : Nat → Nat) :
    ∀ (n i : Nat), (expectedRows env d intensity dur f i n).length = n
  | 0, _ => rfl
  | n + 1, i => by
    simp [expectedRows, expectedRows_length env d intensity dur f n (i + 1)]

theorem expectedRows_getD (env : Env) (d : Detector) (intensity : ℚ)
    (dur : Nat) (f : Nat → Nat) :
    ∀ (n i j : Nat), j < n →
      (expectedRows env d intensity dur f i n).getD j default =
        { timestamp := env.clock d (i + j), detector := d, sample_i := i + j,
          intensity := intensity, duration_ms := dur, pulse_count := f (i + j) }
  | 0, _, j, hj => absurd hj (Nat.not_lt_zero j)
  | n + 1, i, 0, _ => by simp [expectedRows]
  | n + 1, i, j + 1, hj => by
    have ih := expectedRows_getD env d intensity dur f n (i + 1) j (by omega)
    have h2 : i + 1 + j = i + (j + 1) := by omega
    simp only [expectedRows, List.getD_cons_succ]
    rw [ih, h2]

theorem acquireFrom_ok (env : Env) (d : Detector) (intensity : ℚ) (dur : Nat)
    (f : Nat → Nat) (hok : ∀ i, env.oracle d i = Except.ok (f i)) :
    ∀ (n i : Nat), (acquireFrom env d intensity dur i n).2 =
      Except.ok (expectedRows env d intensity dur f i n)
  | 0, _ => rfl
  | n + 1, i => by
    have ih := acquireFrom_ok env d intensity dur f hok n (i + 1)
    simp only [acquireFrom, hok i, expectedRows]
    rw [ih]
    rfl

theorem acquireFrom_rows_detector (env : Env) (d : Detector) (intensity : ℚ)
    (dur : Nat) :
    ∀ (n i : Nat) (rows : List SampleRow),
      (acquireFrom env d intensity dur i n).2 = Except.ok rows →
      ∀ r ∈ rows, r.detector = d
  | 0, i, rows, h => by
    simp only [acquireFrom] at h
    cases h
    intro r hr
    simp at hr
  | n + 1, i, rows, h => by
    cases ho : env.oracle d i with
    | error e => rw [acquireFrom, ho] at h; cases h
    | ok c =>
      simp only [acquireFrom, ho] at h
      cases hrest : (acquireFrom env d intensity dur (i + 1) n).2 with
      | error e => rw [hrest] at h; simp [Except.map] at h
      | ok rest =>
        rw [hrest] at h
        simp only [Except.map] at h
        cases h
        intro r hr
        rcases List.mem_cons.1 hr with hr | hr
        · rw [hr]
        · exact acquireFrom_rows_detector env d intensity dur n (i + 1) rest hrest r hr

theorem acquireFrom_emissions (env : Env) (d : Detector) (intensity : ℚ)
    (dur : Nat) :
    ∀ (n i : Nat), ∀ e ∈ (acquireFrom env d intensity dur i n).1,
      ∃ c, e = Emission.client c
  | 0, i, e, he => by simp [acquireFrom] at he
  | n + 1, i, e, he => by
    rw [acquireFrom] at he
    cases ho : env.oracle d i with
    | error e2 =>
      rw [ho] at he
      simp only [List.mem_singleton] at he
      exact ⟨_, he⟩
    | ok c =>
      rw [ho] at he
      rcases List.mem_cons.1 he with h | h
      · exact ⟨_, h⟩
      · exact acquireFrom_emissions env d intensity dur n (i + 1) e h

/-! ### Symbolic characterization of the sampling engine -/

theorem measure_pulses_snd (env : Env) (d : Detector) :
    (measure_pulses env d).2 =
      (acquireFrom env d (d.intensity env.step_options)
        (d.durationMs env.step_options) 0 (d.sampleCount env.step_options)).2 := by
  simp only [measure_pulses]
  cases h : (acquireFrom env d (d.intensity env.step_options)
      (d.durationMs env.step_options) 0 (d.sampleCount env.step_options)).2 <;>
    simp [h]

theorem measure_pulses_ok (env : Env) (d : Detector) (f : Nat → Nat)
    (hok : ∀ i, env.oracle d i = Except.ok (f i)) :
    (measure_pulses env d).2 =
      Except.ok (expectedRows env d (d.intensity env.step_options)
        (d.durationMs env.step_options) f 0 (d.sampleCount env.step_options)) := by
  rw [measure_pulses_snd]
  exact acquireFrom_ok env d _ _ f hok _ 0

theorem measure_pulses_rows_detector (env : Env) (d : Detector)
    (rows : List SampleRow) (h : (measure_pulses env d).2 = Except.ok rows) :
    ∀ r ∈ rows, r.detector = d := by
  rw [measure_pulses_snd] at h
  exact acquireFrom_rows_detector env d _ _ _ 0 rows h

theorem measure_pulses_head (env : Env) (d : Detector) :
    (measure_pulses env d).1.head? =
      some (Emission.client (ClientCall.analogWrite (d.excitePin env.app_values)
        (intensityDutyCycle (d.intensity env.step_options)))) := by
  simp only [measure_pulses]
  cases h : (acquireFrom env d (d.intensity env.step_options)
      (d.durationMs env.step_options) 0 (d.sampleCount env.step_options)).2 <;>
    simp [h]

theorem measure_pulses_emissions (env : Env) (d : Detector) :
    ∀ e ∈ (measure_pulses env d).1, ∃ c, e = Emission.client c := by
  intro e he
  rw [measure_pulses] at he
  cases h : (acquireFrom env d (d.intensity env.step_options)
      (d.durationMs env.step_options) 0 (d.sampleCount env.step_options)).2 with
  | error e2 =>
    rw [h] at he
    rcases List.mem_cons.1 he with h1 | h1
    · exact ⟨_, h1⟩
    · exact acquireFrom_emissions env d _ _ _ 0 e h1
  | ok rows =>
    rw [h] at he
    rcases List.mem_cons.1 he with h1 | h1
    · exact ⟨_, h1⟩
    · rcases List.mem_append.1 h1 with h2 | h2
      · exact acquireFrom_emissions env d _ _ _ 0 e h2
      · simp only [List.mem_singleton] at h2
        exact ⟨_, h2⟩

/-! ### Symbolic characterization of the per-step aggregation -/

theorem count_pulses_and_log_emissions (env : Env) :
    ∀ e ∈ (count_pulses_and_log env).1,
      (∃ c, e = Emission.client c) ∨ ∃ rs, e = Emission.log rs := by
  have hA : ∀ e ∈ (if env.step_options.absorbance_sample_count ≠ 0 then
      measure_pulses env Detector.absorbance
      else ([], Except.ok [])).1, ∃ c, e = Emission.client c := by
    split
    · exact measure_pulses_emissions env Detector.absorbance
    · intro e he; simp at he
  have hF : ∀ e ∈ (if env.step_options.fluorescence_1_sample_count ≠ 0 then
      measure_pulses env Detector.fluorescence_1
      else ([], Except.ok [])).1, ∃ c, e = Emission.client c := by
    split
    · exact measure_pulses_emissions env Detector.fluorescence_1
    · intro e he; simp at he
  intro e he
  simp only [count_pulses_and_log] at he
  split at he
  · exact Or.inl (hA e he)
  · split at he
    · rcases List.mem_append.1 he with h | h
      · exact Or.inl (hA e h)
      · exact Or.inl (hF e h)
    · split at he
      · rcases List.mem_append.1 he with h | h
        · exact Or.inl (hA e h)
        · exact Or.inl (hF e h)
      · rcases List.mem_append.1 he with h | h
        · rcases List.mem_append.1 h with h2 | h2
          · exact Or.inl (hA e h2)
          · exact Or.inl (hF e h2)
        · simp only [List.mem_singleton] at h
          exact Or.inr ⟨_, h⟩

/-! ### C5, C6, C7 -/

/-- Absorbance disabled, one fluorescence sample; all acquisitions return 7. -/
def env5w : Env :=
  { baseEnv with
    step_options := { defaultStepOptions with fluorescence_1_sample_count := 1 }
    oracle := fun _ _ => Except.ok 7 }

/-- Three absorbance samples; all acquisitions return 7. -/
def env7 : Env :=
  { baseEnv with
    step_options := { defaultStepOptions with absorbance_sample_count := 3 }
    oracle := fun _ _ => Except.ok 7 }

/-- C5 (amended): for every detector whose step options give
`sample_count = 0`, `measure_pulses` itself still returns an empty row
list, and the per-step pipeline `count_pulses_and_log` skips that detector
entirely: every Detector Client call it issues belongs to the other
detector's measurement, and every logged row belongs to the other detector
— so zero client calls are issued for the zero-sample detector and its
excitation is never driven by the pipeline. -/
theorem C5_zero_count_skips_detector (env : Env) (d : Detector)
    (h : d.sampleCount env.step_options = 0) :
    (measure_pulses env d).2 = Except.ok [] ∧
    (∀ c, Emission.client c ∈ (count_pulses_and_log env).1 →
      Emission.client c ∈ (measure_pulses env d.other).1) ∧
    (∀ rows, (count_pulses_and_log env).2 = Except.ok (some rows) →
      ∀ r ∈ rows, r.detector = d.other) := by
  have hmz : (measure_pulses env d).2 = Except.ok [] := by
    rw [measure_pulses_snd, h, acquireFrom]
  refine ⟨hmz, ?_, ?_⟩
  · cases d with
    | absorbance =>
      have hra : (if env.step_options.absorbance_sample_count ≠ 0 then
          measure_pulses env Detector.absorbance else ([], Except.ok []))
          = (([], Except.ok []) :
              List Emission × Except PyErr (List SampleRow)) := by
        rw [if_neg]
        simp [show env.step_options.absorbance_sample_count = 0 from h]
      intro c hc
      by_cases hfl : env.step_options.fluorescence_1_sample_count ≠ 0
      · simp only [count_pulses_and_log, hra, if_pos hfl, List.nil_append] at hc
        cases hres : (measure_pulses env Detector.fluorescence_1).2 with
        | error e =>
          simp only [hres] at hc
          exact hc
        | ok rows_f =>
          simp only [hres] at hc
          by_cases hemp : rows_f.isEmpty
          · rw [if_pos hemp] at hc
            exact hc
          · rw [if_neg hemp] at hc
            rcases List.mem_append.1 hc with h2 | h2
            · exact h2
            · simp at h2
      · simp only [count_pulses_and_log, hra, if_neg hfl] at hc
        simp at hc
    | fluorescence_1 =>
      have hrf : (if env.step_options.fluorescence_1_sample_count ≠ 0 then
          measure_pulses env Detector.fluorescence_1 else ([], Except.ok []))
          = (([], Except.ok []) :
              List Emission × Except PyErr (List SampleRow)) := by
        rw [if_neg]
        simp [show env.step_options.fluorescence_1_sample_count = 0 from h]
      intro c hc
      by_cases ha : env.step_options.absorbance_sample_count ≠ 0
      · simp only [count_pulses_and_log, hrf, if_pos ha, List.append_nil] at hc
        cases hres : (measure_pulses env Detector.absorbance).2 with
        | error e =>
          simp only [hres] at hc
          exact hc
        | ok rows_a =>
          simp only [hres] at hc
          by_cases hemp : rows_a.isEmpty
          · rw [if_pos hemp] at hc
            exact hc
          · rw [if_neg hemp] at hc
            rcases List.mem_append.1 hc with h2 | h2
            · exact h2
            · simp at h2
      · simp only [count_pulses_and_log, hrf, if_neg ha] at hc
        simp at hc
  · cases d with
    | absorbance =>
      have hra : (if env.step_options.absorbance_sample_count ≠ 0 then
          measure_pulses env Detector.absorbance else ([], Except.ok []))
          = (([], Except.ok []) :
              List Emission × Except PyErr (List SampleRow)) := by
        rw [if_neg]
        simp [show env.step_options.absorbance_sample_count = 0 from h]
      intro rows hr
      by_cases hfl : env.step_options.fluorescence_1_sample_count ≠ 0
      · simp only [count_pulses_and_log, hra, if_pos hfl, List.nil_append] at hr
        cases hres : (measure_pulses env Detector.fluorescence_1).2 with
        | error e => simp [hres] at hr
        | ok rows_f =>
          simp only [hres] at hr
          by_cases hemp : rows_f.isEmpty
          · rw [if_pos hemp] at hr
            simp at hr
          · rw [if_neg hemp] at hr
            have heq : rows_f = rows := by simpa using hr
            subst heq
            exact measure_pulses_rows_detector env Detector.fluorescence_1 rows_f hres
      · simp only [count_pulses_and_log, hra, if_neg hfl] at hr
        simp at hr
    | fluorescence_1 =>
      have hrf : (if env.step_options.fluorescence_1_sample_count ≠ 0 then
          measure_pulses env Detector.fluorescence_1 else ([], Except.ok []))
          = (([], Except.ok []) :
              List Emission × Except PyErr (List SampleRow)) := by
        rw [if_neg]
        simp [show env.step_options.fluorescence_1_sample_count = 0 from h]
      intro rows hr
      by_cases ha : env.step_options.absorbance_sample_count ≠ 0
      · simp only [count_pulses_and_log, hrf, if_pos ha, List.append_nil] at hr
        cases hres : (measure_pulses env Detector.absorbance).2 with
        | error e => simp [hres] at hr
        | ok rows_a =>
          simp only [hres] at hr
          by_cases hemp : rows_a.isEmpty
          · rw [if_pos hemp] at hr
            simp at hr
          · rw [if_neg hemp] at hr
            have heq : rows_a = rows := by simpa using hr
            subst heq
            exact measure_pulses_rows_detector env Detector.absorbance rows_a hres
      · simp only [count_pulses_and_log, hrf, if_neg ha] at hr
        simp at hr


/-- Witness for C5 at a concrete environment (absorbance count 0,
fluorescence count 1). -/
theorem C5_zero_count_skips_detector_witness :
    (measure_pulses env5w Detector.absorbance).2 = Except.ok [] ∧
    (∀ c, Emission.client c ∈ (count_pulses_and_log env5w).1 →
      Emission.client c ∈ (measure_pulses env5w Detector.fluorescence_1).1) ∧
    (∀ rows, (count_pulses_and_log env5w).2 = Except.ok (some rows) →
      ∀ r ∈ rows, r.detector = Detector.fluorescence_1) :=
  C5_zero_count_skips_detector env5w Detector.absorbance rfl

/-- C6 (amended): before any acquisition, the duty cycle written to the
detector's excitation output is the *truncation* `int(intensity/100 * 255)`
— the floor, for the valid 0–100 range — with `max_duty = 255`, not the
rounding to the nearest integer. -/
theorem C6_duty_cycle_truncation (env : Env) (d : Detector)
    (h : 0 ≤ d.intensity env.step_options) :
    (measure_pulses env d).1.head? =
      some (Emission.client (ClientCall.analogWrite (d.excitePin env.app_values)
        ⌊d.intensity env.step_options / 100 * 255⌋)) := by
  rw [measure_pulses_head, intensityDutyCycle,
    pyInt_eq_floor _ (mul_nonneg (div_nonneg h (by norm_num)) (by norm_num))]

/-- Witness for C6: at the default fluorescence intensity of 100 % the
first client call writes duty 255 to excitation pin 5. -/
theorem C6_duty_cycle_truncation_witness :
    (measure_pulses baseEnv Detector.fluorescence_1).1.head? =
      some (Emission.client (ClientCall.analogWrite 5 255)) := by
  have h := C6_duty_cycle_truncation baseEnv Detector.fluorescence_1
    (by norm_num [Detector.intensity, baseEnv, defaultStepOptions])
  rw [h]
  norm_num [Detector.intensity, Detector.excitePin, baseEnv, defaultStepOptions,
    defaultAppValues, Int.floor_eq_iff]

/-- C7: when every acquisition returns normally, `measure_pulses` returns
exactly `sample_count` rows whose sample indices are `0, 1, ...` in
acquisition order, each row carrying the configured intensity and
duration. -/
theorem C7_sample_rows_sequential (env : Env) (d : Detector) (f : Nat → Nat)
    (hok : ∀ i, env.oracle d i = Except.ok (f i))
    (hpos : 0 < d.sampleCount env.step_options) :
    ∃ rows, (measure_pulses env d).2 = Except.ok rows ∧
      rows.length = d.sampleCount env.step_options ∧
      ∀ j, j < rows.length →
        (rows.getD j default).sample_i = j ∧
        (rows.getD j default).intensity = d.intensity env.step_options ∧
        (rows.getD j default).duration_ms = d.durationMs env.step_options := by
  refine ⟨expectedRows env d (d.intensity env.step_options)
      (d.durationMs env.step_options) f 0 (d.sampleCount env.step_options),
    measure_pulses_ok env d f hok, expectedRows_length env d _ _ f _ 0, ?_⟩
  intro j hj
  rw [expectedRows_length] at hj
  rw [expectedRows_getD env d (d.intensity env.step_options)
    (d.durationMs env.step_options) f (d.sampleCount env.step_options) 0 j hj]
  simp

/-- Witness for C7: three absorbance samples, oracle returning 7. -/
theorem C7_sample_rows_sequential_witness :
    ∃ rows, (measure_pulses env7 Detector.absorbance).2 = Except.ok rows ∧
      rows.length = Detector.absorbance.sampleCount env7.step_options ∧
      ∀ j, j < rows.length →
        (rows.getD j default).sample_i = j ∧
        (rows.getD j default).intensity =
          Detector.absorbance.intensity env7.step_options ∧
        (rows.getD j default).duration_ms =
          Detector.absorbance.durationMs env7.step_options :=
  C7_sample_rows_sequential env7 Detector.absorbance (fun _ => 7)
    (fun _ => rfl) (by decide)

/-! ### Symbolic characterization of the threshold dispatcher -/

theorem process_absorbance_emissions (env : Env) (m : ℚ) :
    ∀ e ∈ (process_absorbance env m).1,
      (∃ v, e = Emission.setVoltage v) ∨ (∃ fr, e = Emission.setFrequency fr) ∨
        ∃ s, e = Emission.setChannelState s := by
  intro e he
  cases hp : selectedSubprotocolPath env.step_options m with
  | none => simp [process_absorbance, hp] at he
  | some p =>
    simp only [process_absorbance, hp] at he
    cases hl : env.loadProtocol p with
    | error e2 => simp [hl] at he
    | ok steps =>
      simp only [hl] at he
      rcases List.mem_flatten.1 he with ⟨l, hl2, hel⟩
      rcases List.mem_map.1 hl2 with ⟨s, _, rfl⟩
      simp only [replayStep, List.mem_cons, List.mem_singleton,
        List.not_mem_nil, or_false] at hel
      rcases hel with h | h | h
      · exact Or.inl ⟨_, h⟩
      · exact Or.inr (Or.inl ⟨_, h⟩)
      · exact Or.inr (Or.inr ⟨_, h⟩)

theorem count_pulses_and_log_ok (env : Env) (f : Detector → Nat → Nat)
    (hok : ∀ d i, env.oracle d i = Except.ok (f d i)) :
    ∃ x, (count_pulses_and_log env).2 = Except.ok x := by
  have hA := measure_pulses_ok env Detector.absorbance (f Detector.absorbance)
    (hok Detector.absorbance)
  have hF := measure_pulses_ok env Detector.fluorescence_1
    (f Detector.fluorescence_1) (hok Detector.fluorescence_1)
  simp only [count_pulses_and_log]
  rcases Decidable.em (env.step_options.absorbance_sample_count ≠ 0) with ha | ha <;>
    rcases Decidable.em (env.step_options.fluorescence_1_sample_count ≠ 0) with hf | hf
  · simp only [if_pos ha, if_pos hf, hA, hF]
    split <;> exact ⟨_, rfl⟩
  · simp only [if_pos ha, if_neg hf, hA]
    split <;> exact ⟨_, rfl⟩
  · simp only [if_neg ha, if_pos hf, hF]
    split <;> exact ⟨_, rfl⟩
  · simp only [if_neg ha, if_neg hf]
    split <;> exact ⟨_, rfl⟩

/-! ### C8 -/

/-- One concrete sub-protocol step for the C8 witness. -/
def step8 : SubStep :=
  { state_of_channels := [1], voltage := 100, frequency := 10000, duration := 500 }

/-- Threshold 2, an over-threshold sub-protocol path loading `step8`,
control board with two channels. -/
def env8 : Env :=
  { baseEnv with
    step_options := { defaultStepOptions with
      absorbance_threshold := 2
      over_threshold_subprotocol := some "over" }
    loadProtocol := fun _ => Except.ok [step8]
    maxChannels := 2 }

/-- Absorbance rows whose normalized rates are 1, 2 and 3. -/
def rows8 : List SampleRow :=
  [{ timestamp := 0, detector := Detector.absorbance, sample_i := 0,
     intensity := 23, duration_ms := 1, pulse_count := 1000 },
   { timestamp := 1, detector := Detector.absorbance, sample_i := 1,
     intensity := 23, duration_ms := 1, pulse_count := 2000 },
   { timestamp := 2, detector := Detector.absorbance, sample_i := 2,
     intensity := 23, duration_ms := 1, pulse_count := 3000 }]

/-- C8: the dispatcher's measured value is the median of
`pulse_count / duration_ms * 1e-3` over the absorbance rows (the `median`
of this file is the sort-and-average-the-middles definition, covering the
even-count convention); the over-threshold sub-sequence is selected exactly
when `measured >= threshold` and the under-threshold one otherwise; and a
missing identifier for the selected branch replays nothing, while a present
one replays exactly the loaded steps. -/
theorem C8_threshold_median_dispatch (env : Env) (m : ℚ)
    (rows : List SampleRow) :
    measuredAbsorbance rows = median (rows.map pulseRate) ∧
    (env.step_options.absorbance_threshold ≤ m →
      selectedSubprotocolPath env.step_options m =
        env.step_options.over_threshold_subprotocol) ∧
    (m < env.step_options.absorbance_threshold →
      selectedSubprotocolPath env.step_options m =
        env.step_options.under_threshold_subprotocol) ∧
    (selectedSubprotocolPath env.step_options m = none →
      process_absorbance env m = ([], Except.ok ())) ∧
    (∀ p steps, selectedSubprotocolPath env.step_options m = some p →
      env.loadProtocol p = Except.ok steps →
      process_absorbance env m =
        ((steps.map (replayStep env.maxChannels)).flatten, Except.ok ())) := by
  refine ⟨rfl, ?_, ?_, ?_, ?_⟩
  · intro h
    rw [selectedSubprotocolPath, if_pos h]
  · intro h
    rw [selectedSubprotocolPath, if_neg (not_le.2 h)]
  · intro hsel
    simp [process_absorbance, hsel]
  · intro p steps h1 h2
    simp [process_absorbance, h1, h2]

/-- Witness for C8, matching the spec's own test vector: rates
`[1, 2, 3]` have median 2, which meets the threshold 2, selecting the
over-threshold sub-sequence; its single step is replayed with the stored
channel vector zero-padded to the controller's two channels. -/
theorem C8_threshold_median_dispatch_witness :
    measuredAbsorbance rows8 = 2 ∧
    selectedSubprotocolPath env8.step_options 2 = some "over" ∧
    process_absorbance env8 2 =
      ([Emission.setVoltage 100, Emission.setFrequency 10000,
        Emission.setChannelState [1, 0]], Except.ok ()) := by
  have h := C8_threshold_median_dispatch env8 2 rows8
  have hth : env8.step_options.absorbance_threshold ≤ 2 := by
    norm_num [env8, baseEnv, defaultStepOptions]
  have hsel : selectedSubprotocolPath env8.step_options 2 = some "over" :=
    (h.2.1 hth).trans rfl
  refine ⟨?_, hsel, ?_⟩
  · norm_num [measuredAbsorbance, median, sortRates, insertSorted, seriesRate,
      rows8, List.getD_cons_succ, List.getD_cons_zero]
  · rw [h.2.2.2.2 "over" [step8] hsel rfl]
    norm_num [replayStep, adaptChannelState, step8, env8, baseEnv,
      List.replicate]

/-! ### C3 (amended) -/

/-- C3 (amended): with the completion flag set and every acquisition
returning normally, the poll callback either completes the step
successfully — emitting exactly one success step-complete signal as the
last emission, with any `IOError` from the threshold dispatch caught and
logged — or a dispatch exception of a class other than `IOError`
propagates out of the callback and no step-complete signal is emitted at
all. -/
theorem C3_only_ioerror_caught (env : Env) (st : PluginState) (now : ℚ)
    (cont : Bool) (f : Detector → Nat → Nat)
    (hok : ∀ d i, env.oracle d i = Except.ok (f d i))
    (hflag : st.control_board_step_complete = true) :
    (∃ ems, wait_for_control_board env now st cont =
        (ems ++ [Emission.stepComplete pluginName none],
         Except.ok (kill_running_step st, false)) ∧
        ∀ out, Emission.stepComplete pluginName out ∉ ems) ∨
    (∃ e, e ≠ PyErr.ioError ∧
        (wait_for_control_board env now st cont).2 = Except.error e ∧
        ∀ out, Emission.stepComplete pluginName out ∉
          (wait_for_control_board env now st cont).1) := by
  have hnc : ∀ out, Emission.stepComplete pluginName out ∉
      (count_pulses_and_log env).1 := by
    intro out hmem
    rcases count_pulses_and_log_emissions env _ hmem with ⟨c, hc⟩ | ⟨rs, hrs⟩
    · exact Emission.noConfusion hc
    · exact Emission.noConfusion hrs
  have hnp : ∀ (m : ℚ) (out : Option String), Emission.stepComplete pluginName out ∉
      (process_absorbance env m).1 := by
    intro m out hmem
    rcases process_absorbance_emissions env m _ hmem with ⟨v, hv⟩ | ⟨fr, hfr⟩ | ⟨s, hs⟩
    · exact Emission.noConfusion hv
    · exact Emission.noConfusion hfr
    · exact Emission.noConfusion hs
  have hw : wait_for_control_board env now st cont = finish_step env st := by
    simp [wait_for_control_board, hflag]
  rw [hw]
  cases hconn : env.connected with
  | false =>
    left
    refine ⟨[], ?_, by intro out; simp⟩
    simp [finish_step, hconn]
  | true =>
    obtain ⟨x, hx⟩ := count_pulses_and_log_ok env f hok
    cases x with
    | none =>
      left
      refine ⟨(count_pulses_and_log env).1, ?_, hnc⟩
      simp [finish_step, hconn, hx]
    | some rows =>
      rcases Decidable.em (0 < (rows.filter
          (fun r => decide (r.detector = Detector.absorbance))).length) with habs | habs
      · cases hpa : (process_absorbance env (measuredAbsorbance (rows.filter
            (fun r => decide (r.detector = Detector.absorbance))))).2 with
        | ok u =>
          left
          refine ⟨(count_pulses_and_log env).1 ++ (process_absorbance env
              (measuredAbsorbance (rows.filter
                (fun r => decide (r.detector = Detector.absorbance))))).1,
            ?_, ?_⟩
          · simp [finish_step, hconn, hx, if_pos habs, hpa]
          · intro out hmem
            rcases List.mem_append.1 hmem with hm | hm
            · exact hnc out hm
            · exact hnp _ out hm
        | error e =>
          cases e with
          | ioError =>
            left
            refine ⟨(count_pulses_and_log env).1 ++ (process_absorbance env
                (measuredAbsorbance (rows.filter
                  (fun r => decide (r.detector = Detector.absorbance))))).1,
              ?_, ?_⟩
            · simp [finish_step, hconn, hx, if_pos habs, hpa]
            · intro out hmem
              rcases List.mem_append.1 hmem with hm | hm
              · exact hnc out hm
              · exact hnp _ out hm
          | valueError =>
            right
            refine ⟨PyErr.valueError, by simp, ?_, ?_⟩
            · simp [finish_step, hconn, hx, if_pos habs, hpa]
            · intro out hmem
              simp [finish_step, hconn, hx, if_pos habs, hpa] at hmem
              rcases hmem with hm | hm
              · exact hnc out hm
              · exact hnp _ out hm
      · left
        refine ⟨(count_pulses_and_log env).1, ?_, hnc⟩
        simp [finish_step, hconn, hx, if_neg habs]

/-- Same environment as the C3 counterexample but with a loadable
(empty) sub-protocol, for the witness. -/
def env3w : Env :=
  { env3 with loadProtocol := fun _ => Except.ok [] }

/-- Witness for C3 (amended) at a concrete successful dispatch. -/
theorem C3_only_ioerror_caught_witness :
    (∃ ems, wait_for_control_board env3w 0 ⟨true, 0, some 7⟩ true =
        (ems ++ [Emission.stepComplete pluginName none],
         Except.ok (kill_running_step ⟨true, 0, some 7⟩, false)) ∧
        ∀ out, Emission.stepComplete pluginName out ∉ ems) ∨
    (∃ e, e ≠ PyErr.ioError ∧
        (wait_for_control_board env3w 0 ⟨true, 0, some 7⟩ true).2 =
          Except.error e ∧
        ∀ out, Emission.stepComplete pluginName out ∉
          (wait_for_control_board env3w 0 ⟨true, 0, some 7⟩ true).1) :=
  C3_only_ioerror_caught env3w ⟨true, 0, some 7⟩ 0 true (fun _ _ => 5)
    (fun _ _ => rfl) rfl
